import Mathlib

/-!
Verification development for the whisper-client push-to-talk voice capture
client.  The Python source (src/audio/capture.py, src/audio/processor.py,
src/input/hotkey.py, src/network/websocket.py) is shallowly embedded as
executable Lean functions over explicit state records; external collaborators
(the sound device, the transcription engine, the socket library, the keyboard
hook library) appear as boolean/value oracles supplied by the environment.
-/

namespace WhisperClient

/-! ## AudioCapture (src/audio/capture.py) -/

/-- One fixed-size sample chunk delivered by the device callback
(an `indata.copy()` in the source); samples modelled as integers. -/
abbrev Chunk := List Int

/-- The mutable fields of `AudioCapture` relevant to recording:
`self.is_recording` and `self.audio_queue` (queue contents in arrival
order, oldest first). -/
structure CaptureState where
  is_recording : Bool
  audio_queue : List Chunk
deriving DecidableEq, Repr

/-- Observable callback events fired by `AudioCapture`. -/
inductive CapEvent
  | onStart
  | onStop
deriving DecidableEq, Repr

/-- `AudioCapture.start_recording` (capture.py lines 89-114).
No-op when already recording.  Otherwise sets `is_recording = True`,
clears the queue, and opens the stream; `streamOk` is the oracle for
whether `sd.InputStream(...).start()` succeeds.  On success the
`on_recording_start` callback fires; on exception `is_recording` is
reset to `False` and no callback fires. -/
def start_recording (streamOk : Bool) (s : CaptureState) :
    CaptureState × List CapEvent :=
  if s.is_recording then (s, [])
  else if streamOk then (⟨true, []⟩, [CapEvent.onStart])
  else (⟨false, []⟩, [])

/-- `AudioCapture._audio_callback` (capture.py lines 148-154): copies the
delivered chunk into the queue when recording, drops it otherwise. -/
def audio_callback (c : Chunk) (s : CaptureState) : CaptureState :=
  if s.is_recording then { s with audio_queue := s.audio_queue ++ [c] }
  else s

/-- `AudioCapture.stop_recording` (capture.py lines 116-146).
Returns `none` when not recording.  Otherwise clears `is_recording`,
stops and closes the stream (`stopOk` is the oracle for `stream.stop()` /
`stream.close()` raising; on exception the body returns `None` before
draining), drains all queued chunks in arrival order and concatenates
them.  With zero chunks it returns `None` before reaching the
`on_recording_stop` callback; with at least one chunk it fires the
callback and returns the concatenation. -/
def stop_recording (stopOk : Bool) (s : CaptureState) :
    CaptureState × Option Chunk × List CapEvent :=
  if ¬ s.is_recording then (s, none, [])
  else if ¬ stopOk then ({ s with is_recording := false }, none, [])
  else
    let chunks := s.audio_queue
    if chunks.isEmpty then (⟨false, []⟩, none, [])
    else (⟨false, []⟩, some chunks.flatten, [CapEvent.onStop])

/-- Deliver a list of chunks to the device callback in order. -/
def deliverChunks (cs : List Chunk) (s : CaptureState) : CaptureState :=
  cs.foldl (fun st c => audio_callback c st) s

theorem deliverChunks_recording (cs : List Chunk) (q : List Chunk) :
    deliverChunks cs ⟨true, q⟩ = ⟨true, q ++ cs⟩ := by
  induction cs generalizing q with
  | nil => simp [deliverChunks]
  | cons c cs ih =>
      have hcb : audio_callback c ⟨true, q⟩ = ⟨true, q ++ [c]⟩ := by
        simp [audio_callback]
      calc deliverChunks (c :: cs) ⟨true, q⟩
          = deliverChunks cs (audio_callback c ⟨true, q⟩) := rfl
        _ = deliverChunks cs ⟨true, q ++ [c]⟩ := by rw [hcb]
        _ = ⟨true, (q ++ [c]) ++ cs⟩ := ih (q ++ [c])
        _ = ⟨true, q ++ c :: cs⟩ := by simp

/-- C1: starting from any non-recording capture state, a successful
`start_recording`, followed by chunks c1..cn (n ≥ 1) delivered to the
device callback, followed by `stop_recording`, returns exactly the
concatenation of c1..cn in arrival order (any stale queue contents are
cleared at start); and `stop_recording` called while not recording
returns `none`. -/
theorem capture_session_returns_concatenation
    (s : CaptureState) (cs : List Chunk)
    (hrec : s.is_recording = false) (hcs : cs ≠ []) :
    (stop_recording true
        (deliverChunks cs (start_recording true s).1)).2.1 = some cs.flatten ∧
    (stop_recording true s).2.1 = none := by
  constructor
  · have hstart : (start_recording true s).1 = ⟨true, []⟩ := by
      simp [start_recording, hrec]
    rw [hstart]
    have hdel := deliverChunks_recording cs []
    simp only [List.nil_append] at hdel
    rw [hdel]
    simp [stop_recording, List.isEmpty_iff, hcs]
  · simp [stop_recording, hrec]

/-- Witness for C1 at a concrete session: stale chunk [9] in the queue,
then start, deliver [1,2] and [3], stop returns [1,2,3]. -/
theorem capture_session_returns_concatenation_witness :
    (⟨false, [[9]]⟩ : CaptureState).is_recording = false ∧
    ([[1, 2], [3]] : List Chunk) ≠ [] ∧
    (stop_recording true
        (deliverChunks [[1, 2], [3]]
          (start_recording true ⟨false, [[9]]⟩).1)).2.1 = some [1, 2, 3] ∧
    (stop_recording true ⟨false, [[9]]⟩).2.1 = none := by
  refine ⟨rfl, by decide, ?_⟩
  have h := capture_session_returns_concatenation ⟨false, [[9]]⟩ [[1, 2], [3]]
    rfl (by decide)
  simpa using h

/-- C5 counterexample: a `stop_recording` call made while recording but
with zero captured chunks returns `None` before the `on_recording_stop`
callback, so no callback fires — contradicting "every stop() call made
while recording ... fires the onStop callback". -/
theorem stop_zero_chunks_fires_no_callback :
    (⟨true, []⟩ : CaptureState).is_recording = true ∧
    (stop_recording true ⟨true, []⟩).2.2 = [] := by
  decide

/-- C5 amended: every `stop_recording` call made while recording (with the
stream stopping cleanly) stops the stream, drains all queued chunks in
arrival order, concatenates them, and returns the buffer, firing the
onStop callback exactly when at least one chunk was captured (with zero
chunks it returns absent and fires no callback); a call while not
recording is a no-op returning absent and firing no callback. -/
theorem stop_recording_drains_and_fires_iff_nonempty
    (s : CaptureState) :
    (s.is_recording = true →
      stop_recording true s =
        (⟨false, []⟩,
         if s.audio_queue.isEmpty then none else some s.audio_queue.flatten,
         if s.audio_queue.isEmpty then [] else [CapEvent.onStop])) ∧
    (s.is_recording = false → stop_recording true s = (s, none, [])) := by
  constructor
  · intro h
    by_cases hq : s.audio_queue.isEmpty <;>
      simp [stop_recording, h, hq]
  · intro h
    simp [stop_recording, h]

/-- Witness for C5 (amended) at both a one-chunk recording state and a
non-recording state. -/
theorem stop_recording_drains_and_fires_iff_nonempty_witness :
    ((⟨true, [[7]]⟩ : CaptureState).is_recording = true →
      stop_recording true ⟨true, [[7]]⟩ =
        (⟨false, []⟩, some [7], [CapEvent.onStop])) ∧
    ((⟨false, []⟩ : CaptureState).is_recording = false →
      stop_recording true ⟨false, []⟩ = (⟨false, []⟩, none, [])) := by
  constructor
  · intro h
    have := (stop_recording_drains_and_fires_iff_nonempty ⟨true, [[7]]⟩).1 h
    simpa using this
  · intro h
    exact (stop_recording_drains_and_fires_iff_nonempty ⟨false, []⟩).2 h

/-! ## HotkeyManager (src/input/hotkey.py) -/

/-- Recording mode: HotkeyManager.mode, the strings 'push' and 'toggle'. -/
inductive Mode
  | push
  | toggle
deriving DecidableEq, Repr

/-- The keyboard hooks currently installed via the keyboard library:
the push-to-talk press/release pair (if any) and one press hook per
action hotkey, as (action, key) pairs. -/
structure HookSet where
  ptt : Option String
  actions : List (String × String)
deriving DecidableEq, Repr

/-- The mutable fields of `HotkeyManager`, together with the owned
`AudioCapture` state.  `loop_set` models `self.loop is not None`,
`loop_running` models `self.loop.is_running()`, `callback_set` /
`action_callback_set` model the two optional callbacks being set.
Action hotkeys are an association list in insertion order (Python dict). -/
structure HMState where
  push_to_talk_key : String
  mode : Mode
  action_hotkeys : List (String × String)
  is_recording : Bool
  callback_set : Bool
  action_callback_set : Bool
  loop_set : Bool
  loop_running : Bool
  hooks_active : Bool
  hooks : HookSet
  capture : CaptureState
deriving DecidableEq, Repr

/-- Observable effects of `HotkeyManager` handlers: scheduling
`_process_audio` on the event loop, emitting an action event to the
action callback, and the forwarded capture callbacks. -/
inductive HMEvent
  | scheduleProcess
  | emitAction (kind : String) (timestamp : Nat)
  | capEv (e : CapEvent)
deriving DecidableEq, Repr

/-- `HotkeyManager.stop` (hotkey.py lines 84-90): `keyboard.unhook_all()`,
clear `_hooks_active`, and if recording, clear `is_recording` and call
`capture.stop_recording()` discarding its return value. -/
def hm_stop (stopOk : Bool) (s : HMState) : HMState × List HMEvent :=
  let s1 := { s with hooks := ⟨none, []⟩, hooks_active := false }
  if s1.is_recording then
    let r := stop_recording stopOk s1.capture
    ({ s1 with is_recording := false, capture := r.1 }, r.2.2.map HMEvent.capEv)
  else (s1, [])

/-- The hook set installed by `HotkeyManager.start` for a configuration:
press/release hooks for the push-to-talk key when non-empty, and a press
hook per action hotkey whose key is non-empty. -/
def installHooks (s : HMState) : HookSet :=
  ⟨if s.push_to_talk_key = "" then none else some s.push_to_talk_key,
   s.action_hotkeys.filter (fun p => p.2 != "")⟩

/-- `HotkeyManager.start` (hotkey.py lines 53-70): stores the loop, calls
`self.stop()` to clear existing hooks, installs the push-to-talk and
action hooks, and sets `_hooks_active`. -/
def hm_start (stopOk : Bool) (s : HMState) : HMState × List HMEvent :=
  let s1 := { s with loop_set := true }
  let r := hm_stop stopOk s1
  let s2 := r.1
  ({ s2 with hooks := installHooks s2, hooks_active := true }, r.2)

/-- The restart step shared verbatim by `set_hotkey`, `set_mode` and
`set_action_hotkeys` (hotkey.py lines 29-32, 37-40, 49-51): if hooks are
active and a loop is set, stop then start. -/
def restart_hooks (stopOk : Bool) (s1 : HMState) : HMState × List HMEvent :=
  if s1.hooks_active && s1.loop_set then
    let r1 := hm_stop stopOk s1
    let r2 := hm_start stopOk r1.1
    (r2.1, r1.2 ++ r2.2)
  else (s1, [])

/-- `HotkeyManager.set_hotkey` (hotkey.py lines 26-32): store the new key;
if hooks are active and a loop is set, restart the hooks (stop then start). -/
def set_hotkey (stopOk : Bool) (k : String) (s : HMState) :
    HMState × List HMEvent :=
  restart_hooks stopOk { s with push_to_talk_key := k }

/-- `HotkeyManager.set_mode` (hotkey.py lines 34-40). -/
def set_mode (stopOk : Bool) (m : Mode) (s : HMState) :
    HMState × List HMEvent :=
  restart_hooks stopOk { s with mode := m }

/-- `HotkeyManager.set_action_hotkeys` (hotkey.py lines 46-51): keep only
entries whose value is truthy (non-empty key string), then restart the
hooks if active. -/
def set_action_hotkeys (stopOk : Bool) (hs : List (String × String))
    (s : HMState) : HMState × List HMEvent :=
  restart_hooks stopOk
    { s with action_hotkeys := hs.filter (fun p => p.2 != "") }

/-- `HotkeyManager._on_key_press` (hotkey.py lines 92-109). -/
def on_key_press (streamOk : Bool) (s : HMState) : HMState × List HMEvent :=
  match s.mode with
  | Mode.push =>
      if !s.is_recording then
        let r := start_recording streamOk s.capture
        ({ s with is_recording := true, capture := r.1 }, r.2.map HMEvent.capEv)
      else (s, [])
  | Mode.toggle =>
      if !s.is_recording then
        let r := start_recording streamOk s.capture
        ({ s with is_recording := true, capture := r.1 }, r.2.map HMEvent.capEv)
      else
        ({ s with is_recording := false },
         if s.loop_set && s.loop_running then [HMEvent.scheduleProcess] else [])

/-- `HotkeyManager._on_key_release` (hotkey.py lines 111-120). -/
def on_key_release (s : HMState) : HMState × List HMEvent :=
  match s.mode with
  | Mode.push =>
      if s.is_recording then
        ({ s with is_recording := false },
         if s.loop_set && s.loop_running then [HMEvent.scheduleProcess] else [])
      else (s, [])
  | Mode.toggle => (s, [])

/-- `HotkeyManager._on_action_key` (hotkey.py lines 72-82): when the
action callback is set and the loop is running, schedule the callback
with the action kind and the current timestamp; recording state is
untouched. -/
def on_action_key (a : String) (ts : Nat) (s : HMState) :
    HMState × List HMEvent :=
  if s.action_callback_set && s.loop_set && s.loop_running then
    (s, [HMEvent.emitAction a ts])
  else (s, [])

/-- A raw key event on the push-to-talk key. -/
inductive KeyEv
  | down
  | up
deriving DecidableEq, Repr

/-- One keyboard-hook delivery to the push-to-talk handlers. -/
def hmKeyStep (streamOk : Bool) (s : HMState) (e : KeyEv) : HMState :=
  match e with
  | KeyEv.down => (on_key_press streamOk s).1
  | KeyEv.up => (on_key_release s).1

/-- Run a sequence of push-to-talk key events through the handlers. -/
def runKeys (streamOk : Bool) (s : HMState) (es : List KeyEv) : HMState :=
  es.foldl (hmKeyStep streamOk) s

/-- The effect of one push-mode key event on the recording flag. -/
def pushStepB (b : Bool) (e : KeyEv) : Bool :=
  match e with
  | KeyEv.down => true
  | KeyEv.up => false

/-- The effect of one toggle-mode key event on the recording flag. -/
def toggleStepB (b : Bool) (e : KeyEv) : Bool :=
  match e with
  | KeyEv.down => !b
  | KeyEv.up => b

theorem hmKeyStep_mode (ok : Bool) (s : HMState) (e : KeyEv) :
    (hmKeyStep ok s e).mode = s.mode := by
  cases e <;> cases hm : s.mode <;>
    simp [hmKeyStep, on_key_press, on_key_release, hm] <;> split <;>
      first
        | rfl
        | exact hm

theorem hmKeyStep_isRec (ok : Bool) (s : HMState) (e : KeyEv) :
    (hmKeyStep ok s e).is_recording =
      (match s.mode with
       | Mode.push => pushStepB s.is_recording e
       | Mode.toggle => toggleStepB s.is_recording e) := by
  cases e <;> cases hm : s.mode <;> cases hr : s.is_recording <;>
    simp [hmKeyStep, on_key_press, on_key_release, pushStepB, toggleStepB,
      hm, hr]

theorem runKeys_isRec_push (ok : Bool) (s : HMState) (es : List KeyEv)
    (hm : s.mode = Mode.push) :
    (runKeys ok s es).is_recording = es.foldl pushStepB s.is_recording := by
  induction es generalizing s with
  | nil => rfl
  | cons e es ih =>
      have h1 : runKeys ok s (e :: es) = runKeys ok (hmKeyStep ok s e) es := rfl
      rw [h1, ih _ (by rw [hmKeyStep_mode, hm]), List.foldl_cons]
      rw [hmKeyStep_isRec, hm]

theorem runKeys_isRec_toggle (ok : Bool) (s : HMState) (es : List KeyEv)
    (hm : s.mode = Mode.toggle) :
    (runKeys ok s es).is_recording = es.foldl toggleStepB s.is_recording := by
  induction es generalizing s with
  | nil => rfl
  | cons e es ih =>
      have h1 : runKeys ok s (e :: es) = runKeys ok (hmKeyStep ok s e) es := rfl
      rw [h1, ih _ (by rw [hmKeyStep_mode, hm]), List.foldl_cons]
      rw [hmKeyStep_isRec, hm]

theorem foldl_pushStepB (b : Bool) (es : List KeyEv) :
    es.foldl pushStepB b =
      (match es.getLast? with
       | some KeyEv.down => true
       | some KeyEv.up => false
       | none => b) := by
  induction es generalizing b with
  | nil => rfl
  | cons e es ih =>
      cases es with
      | nil => cases e <;> rfl
      | cons e2 es2 =>
          rw [List.foldl_cons, ih, List.getLast?_cons_cons]
          cases h : (e2 :: es2).getLast? with
          | none => simp at h
          | some x => cases x <;> rfl

theorem foldl_toggleStepB (b : Bool) (es : List KeyEv) :
    es.foldl toggleStepB b =
      Bool.xor b (decide (es.count KeyEv.down % 2 = 1)) := by
  induction es generalizing b with
  | nil => simp
  | cons e es ih =>
      rw [List.foldl_cons, ih]
      cases e with
      | down =>
          have hc : (KeyEv.down :: es).count KeyEv.down
              = es.count KeyEv.down + 1 := by simp
          rw [hc]
          rcases Nat.mod_two_eq_zero_or_one (es.count KeyEv.down) with h | h <;>
            cases b <;> simp [toggleStepB, h, Nat.add_mod]
      | up =>
          have hc : (KeyEv.up :: es).count KeyEv.down
              = es.count KeyEv.down := by simp
          rw [hc]
          simp [toggleStepB]

/-- C2: for every sequence of push-to-talk key events: in Push mode the
final recording flag is true iff the most recent event was a key-down
(key-downs while already recording are no-ops on the flag); in Toggle
mode one key-down flips the flag, a key-up leaves it unchanged, and over
a whole sequence the flag equals the initial flag xor the parity of the
number of key-downs (it flips exactly once per key-down and is
unaffected by key-ups). -/
theorem recording_mode_state_machine (ok : Bool) (s : HMState)
    (es : List KeyEv) :
    (s.mode = Mode.push →
      (runKeys ok s es).is_recording =
        (match es.getLast? with
         | some KeyEv.down => true
         | some KeyEv.up => false
         | none => s.is_recording)) ∧
    (s.mode = Mode.toggle →
      (hmKeyStep ok s KeyEv.down).is_recording = !s.is_recording ∧
      (hmKeyStep ok s KeyEv.up).is_recording = s.is_recording ∧
      (runKeys ok s es).is_recording =
        Bool.xor s.is_recording (decide (es.count KeyEv.down % 2 = 1))) := by
  constructor
  · intro hm
    rw [runKeys_isRec_push ok s es hm, foldl_pushStepB]
  · intro hm
    refine ⟨?_, ?_, ?_⟩
    · rw [hmKeyStep_isRec, hm]
      rfl
    · rw [hmKeyStep_isRec, hm]
      rfl
    · rw [runKeys_isRec_toggle ok s es hm, foldl_toggleStepB]

/-- Witness for C2: after the sequence down, up, down a push-mode manager
is recording (last event is a key-down); a toggle-mode manager is not
recording (the sequence contains two key-downs, so the flag flipped
twice). -/
theorem recording_mode_state_machine_witness :
    ((⟨"alt", Mode.push, [], false, true, true, true, true, false,
        ⟨none, []⟩, ⟨false, []⟩⟩ : HMState).mode = Mode.push ∧
      (runKeys true
        ⟨"alt", Mode.push, [], false, true, true, true, true, false,
          ⟨none, []⟩, ⟨false, []⟩⟩
        [KeyEv.down, KeyEv.up, KeyEv.down]).is_recording = true) ∧
    ((⟨"alt", Mode.toggle, [], false, true, true, true, true, false,
        ⟨none, []⟩, ⟨false, []⟩⟩ : HMState).mode = Mode.toggle ∧
      (runKeys true
        ⟨"alt", Mode.toggle, [], false, true, true, true, true, false,
          ⟨none, []⟩, ⟨false, []⟩⟩
        [KeyEv.down, KeyEv.up, KeyEv.down]).is_recording = false) := by
  constructor
  · refine ⟨rfl, ?_⟩
    have h := (recording_mode_state_machine true
      ⟨"alt", Mode.push, [], false, true, true, true, true, false,
        ⟨none, []⟩, ⟨false, []⟩⟩
      [KeyEv.down, KeyEv.up, KeyEv.down]).1 rfl
    simpa using h
  · refine ⟨rfl, ?_⟩
    have h := ((recording_mode_state_machine true
      ⟨"alt", Mode.toggle, [], false, true, true, true, true, false,
        ⟨none, []⟩, ⟨false, []⟩⟩
      [KeyEv.down, KeyEv.up, KeyEv.down]).2 rfl).2.2
    simpa using h

theorem stop_recording_clears_flag (ok : Bool) (c : CaptureState) :
    (stop_recording ok c).1.is_recording = false := by
  cases hr : c.is_recording with
  | false => simp [stop_recording, hr]
  | true =>
      cases hok : ok with
      | false => simp [stop_recording, hr]
      | true =>
          by_cases hq : c.audio_queue.isEmpty <;>
            simp [stop_recording, hr, hq]

theorem restart_hooks_spec (stopOk : Bool) (s1 : HMState)
    (ha : s1.hooks_active = true) (hl : s1.loop_set = true)
    (hr : s1.is_recording = true) :
    restart_hooks stopOk s1 =
      ({ s1 with
         is_recording := false,
         capture := (stop_recording stopOk s1.capture).1,
         loop_set := true,
         hooks := installHooks s1,
         hooks_active := true },
       (stop_recording stopOk s1.capture).2.2.map HMEvent.capEv) := by
  simp [restart_hooks, hm_stop, hm_start, installHooks, ha, hl, hr]

/-- C8: pressing a registered action hotkey (with the action callback set
and the event loop running) emits exactly one action event carrying the
action kind and the timestamp, and leaves the whole manager state — in
particular the mode and the recording flag — unchanged. -/
theorem action_hotkey_emits_and_preserves (s : HMState) (a : String)
    (ts : Nat)
    (hcb : s.action_callback_set = true) (hl : s.loop_set = true)
    (hr : s.loop_running = true) :
    (on_action_key a ts s).1 = s ∧
    (on_action_key a ts s).2 = [HMEvent.emitAction a ts] ∧
    (on_action_key a ts s).1.mode = s.mode ∧
    (on_action_key a ts s).1.is_recording = s.is_recording := by
  simp [on_action_key, hcb, hl, hr]

/-- Witness for C8 at a concrete recording push-mode manager. -/
theorem action_hotkey_emits_and_preserves_witness :
    (⟨"alt", Mode.push, [("tts", "t")], true, true, true, true, true, true,
        ⟨some "alt", [("tts", "t")]⟩, ⟨true, [[5]]⟩⟩
      : HMState).action_callback_set = true ∧
    (on_action_key "tts" 42
        ⟨"alt", Mode.push, [("tts", "t")], true, true, true, true, true,
          true, ⟨some "alt", [("tts", "t")]⟩, ⟨true, [[5]]⟩⟩).1.is_recording
      = true ∧
    (on_action_key "tts" 42
        ⟨"alt", Mode.push, [("tts", "t")], true, true, true, true, true,
          true, ⟨some "alt", [("tts", "t")]⟩, ⟨true, [[5]]⟩⟩).2
      = [HMEvent.emitAction "tts" 42] := by
  have h := action_hotkey_emits_and_preserves
    ⟨"alt", Mode.push, [("tts", "t")], true, true, true, true, true, true,
      ⟨some "alt", [("tts", "t")]⟩, ⟨true, [[5]]⟩⟩ "tts" 42 rfl rfl rfl
  exact ⟨rfl, by rw [h.1], h.2.1⟩

/-- C9: while hooks are installed and a recording is in progress, each of
`set_hotkey`, `set_mode`, `set_action_hotkeys` terminates the recording
(manager and capture recording flags end false), discards the captured
buffer — the emitted events contain no processing handoff — and
reinstalls the hooks from the new configuration. -/
theorem config_change_discards_recording (stopOk : Bool) (s : HMState)
    (k : String) (m : Mode) (hs : List (String × String))
    (ha : s.hooks_active = true) (hl : s.loop_set = true)
    (hr : s.is_recording = true) :
    ((set_hotkey stopOk k s).1.is_recording = false ∧
     (set_hotkey stopOk k s).1.capture.is_recording = false ∧
     (set_hotkey stopOk k s).1.hooks_active = true ∧
     (set_hotkey stopOk k s).1.hooks
        = installHooks { s with push_to_talk_key := k } ∧
     HMEvent.scheduleProcess ∉ (set_hotkey stopOk k s).2) ∧
    ((set_mode stopOk m s).1.is_recording = false ∧
     (set_mode stopOk m s).1.capture.is_recording = false ∧
     (set_mode stopOk m s).1.hooks_active = true ∧
     (set_mode stopOk m s).1.hooks = installHooks { s with mode := m } ∧
     HMEvent.scheduleProcess ∉ (set_mode stopOk m s).2) ∧
    ((set_action_hotkeys stopOk hs s).1.is_recording = false ∧
     (set_action_hotkeys stopOk hs s).1.capture.is_recording = false ∧
     (set_action_hotkeys stopOk hs s).1.hooks_active = true ∧
     (set_action_hotkeys stopOk hs s).1.hooks
        = installHooks
            { s with action_hotkeys := hs.filter (fun p => p.2 != "") } ∧
     HMEvent.scheduleProcess ∉ (set_action_hotkeys stopOk hs s).2) := by
  have h1 := restart_hooks_spec stopOk { s with push_to_talk_key := k }
    ha hl hr
  have h2 := restart_hooks_spec stopOk { s with mode := m } ha hl hr
  have h3 := restart_hooks_spec stopOk
    { s with action_hotkeys := hs.filter (fun p => p.2 != "") } ha hl hr
  refine ⟨?_, ?_, ?_⟩
  · rw [show set_hotkey stopOk k s
        = restart_hooks stopOk { s with push_to_talk_key := k } from rfl, h1]
    refine ⟨rfl, stop_recording_clears_flag stopOk _, rfl, rfl, ?_⟩
    simp [List.mem_map]
  · rw [show set_mode stopOk m s
        = restart_hooks stopOk { s with mode := m } from rfl, h2]
    refine ⟨rfl, stop_recording_clears_flag stopOk _, rfl, rfl, ?_⟩
    simp [List.mem_map]
  · rw [show set_action_hotkeys stopOk hs s
        = restart_hooks stopOk
            { s with action_hotkeys := hs.filter (fun p => p.2 != "") }
        from rfl, h3]
    refine ⟨rfl, stop_recording_clears_flag stopOk _, rfl, rfl, ?_⟩
    simp [List.mem_map]

/-- Witness for C9 at a concrete recording manager. -/
theorem config_change_discards_recording_witness :
    (⟨"alt", Mode.push, [("tts", "t")], true, true, true, true, true, true,
        ⟨some "alt", [("tts", "t")]⟩, ⟨true, [[5]]⟩⟩
      : HMState).is_recording = true ∧
    (set_hotkey true "ctrl"
        ⟨"alt", Mode.push, [("tts", "t")], true, true, true, true, true,
          true, ⟨some "alt", [("tts", "t")]⟩, ⟨true, [[5]]⟩⟩).1.is_recording
      = false ∧
    (set_hotkey true "ctrl"
        ⟨"alt", Mode.push, [("tts", "t")], true, true, true, true, true,
          true, ⟨some "alt", [("tts", "t")]⟩,
          ⟨true, [[5]]⟩⟩).1.capture.is_recording = false ∧
    HMEvent.scheduleProcess ∉
      (set_hotkey true "ctrl"
        ⟨"alt", Mode.push, [("tts", "t")], true, true, true, true, true,
          true, ⟨some "alt", [("tts", "t")]⟩, ⟨true, [[5]]⟩⟩).2 := by
  have h := (config_change_discards_recording true
    ⟨"alt", Mode.push, [("tts", "t")], true, true, true, true, true, true,
      ⟨some "alt", [("tts", "t")]⟩, ⟨true, [[5]]⟩⟩
    "ctrl" Mode.toggle [] rfl rfl rfl).1
  exact ⟨rfl, h.1, h.2.1, h.2.2.2.2⟩

theorem keyed_list_snd_unique {l : List (String × String)}
    (hnd : (l.map Prod.fst).Nodup) {a x y : String}
    (hx : (a, x) ∈ l) (hy : (a, y) ∈ l) : x = y := by
  induction l with
  | nil => cases hx
  | cons p l ih =>
      rw [List.map_cons, List.nodup_cons] at hnd
      rcases List.mem_cons.mp hx with hx1 | hx2 <;>
        rcases List.mem_cons.mp hy with hy1 | hy2
      · rw [← hx1] at hy1
        exact (congrArg Prod.snd hy1.symm)
      · exfalso
        apply hnd.1
        have hpa : p.1 = a := by rw [← hx1]
        rw [hpa]
        exact List.mem_map.mpr ⟨(a, y), hy2, rfl⟩
      · exfalso
        apply hnd.1
        have hpa : p.1 = a := by rw [← hy1]
        rw [hpa]
        exact List.mem_map.mpr ⟨(a, x), hx2, rfl⟩
      · exact ih hnd.2 hx2 hy2

theorem restart_hooks_action_hotkeys (ok : Bool) (t : HMState) :
    (restart_hooks ok t).1.action_hotkeys = t.action_hotkeys := by
  by_cases hg : (t.hooks_active && t.loop_set) = true <;>
    by_cases h : t.is_recording = true <;>
      simp [restart_hooks, hm_stop, hm_start, installHooks, hg, h]

theorem hm_start_hooks_actions (ok : Bool) (t : HMState) :
    (hm_start ok t).1.hooks.actions
      = t.action_hotkeys.filter (fun p => p.2 != "") := by
  by_cases h : t.is_recording = true <;>
    simp [hm_start, hm_stop, installHooks, h]

/-- C10: `set_action_hotkeys` stores only the entries whose key value is
non-empty; an entry (a, "") with an empty key (dict keys being unique) is
omitted from the stored mapping, and the next `start` installs no
keyboard hook for that action. -/
theorem set_action_hotkeys_drops_empty (stopOk : Bool) (s : HMState)
    (hs : List (String × String)) (a : String)
    (hnd : (hs.map Prod.fst).Nodup) (hmem : (a, "") ∈ hs) :
    (set_action_hotkeys stopOk hs s).1.action_hotkeys
        = hs.filter (fun p => p.2 != "") ∧
    (∀ k, (a, k) ∉ (set_action_hotkeys stopOk hs s).1.action_hotkeys) ∧
    (∀ k, (a, k) ∉
      (hm_start stopOk (set_action_hotkeys stopOk hs s).1).1.hooks.actions) := by
  have hstored : (set_action_hotkeys stopOk hs s).1.action_hotkeys
      = hs.filter (fun p => p.2 != "") := by
    rw [show set_action_hotkeys stopOk hs s
        = restart_hooks stopOk
            { s with action_hotkeys := hs.filter (fun p => p.2 != "") }
        from rfl]
    rw [restart_hooks_action_hotkeys]
  have hnot : ∀ k, (a, k) ∉ hs.filter (fun p => p.2 != "") := by
    intro k hk
    have hk2 := List.mem_filter.mp hk
    have hkne : k ≠ "" := by
      have := hk2.2
      simpa using this
    exact hkne (keyed_list_snd_unique hnd hk2.1 hmem)
  refine ⟨hstored, ?_, ?_⟩
  · intro k
    rw [hstored]
    exact hnot k
  · intro k hk
    rw [hm_start_hooks_actions, hstored] at hk
    have := (List.mem_filter.mp hk).1
    exact hnot k this

/-- Witness for C10: action hotkeys {tts ↦ "t", subs ↦ ""} — the subs
entry is dropped from the stored mapping and from the installed hooks. -/
theorem set_action_hotkeys_drops_empty_witness :
    ((([("tts", "t"), ("subs", "")] : List (String × String)).map
        Prod.fst).Nodup ∧ ("subs", "") ∈
          ([("tts", "t"), ("subs", "")] : List (String × String))) ∧
    (set_action_hotkeys true [("tts", "t"), ("subs", "")]
        ⟨"alt", Mode.push, [], false, true, true, true, true, false,
          ⟨none, []⟩, ⟨false, []⟩⟩).1.action_hotkeys = [("tts", "t")] ∧
    ("subs", "") ∉
      (set_action_hotkeys true [("tts", "t"), ("subs", "")]
        ⟨"alt", Mode.push, [], false, true, true, true, true, false,
          ⟨none, []⟩, ⟨false, []⟩⟩).1.action_hotkeys := by
  have h := set_action_hotkeys_drops_empty true
    ⟨"alt", Mode.push, [], false, true, true, true, true, false,
      ⟨none, []⟩, ⟨false, []⟩⟩
    [("tts", "t"), ("subs", "")] "subs" (by decide) (by decide)
  refine ⟨⟨by decide, by decide⟩, ?_, h.2.1 ""⟩
  rw [h.1]
  decide

/-! ## AudioProcessor (src/audio/processor.py) -/

/-- One transcript segment: text plus start/end offsets. -/
structure Seg where
  text : String
  startOff : Int
  endOff : Int
deriving DecidableEq, Repr

/-- The transcript value returned by `process_audio`. -/
structure Transcript where
  text : String
  language : String
  segments : List Seg
deriving DecidableEq, Repr

/-- Outcome of the external `model.transcribe` call: it raised, or it
returned a result with a (possibly empty) segments list. -/
inductive TranscribeOut
  | raised
  | res (segments : List Seg)
deriving DecidableEq, Repr

/-- Outcome of the external `whisperx.align` call: it raised, or it
returned aligned segments and an optional language tag. -/
inductive AlignOut
  | raised
  | res (segments : List Seg) (language : Option String)
deriving DecidableEq, Repr

/-- Observable events of `AudioProcessor.process_audio`: the
`on_processing_start` callback, the external engine being entered, and
the `on_processing_end` callback. -/
inductive PEvent
  | procStart
  | engineCall
  | procEnd
deriving DecidableEq, Repr

/-- `AudioProcessor.process_audio` (processor.py lines 65-118), with the
two external engine calls as oracles and `cbStart`/`cbEnd` modelling
whether `on_processing_start` / `on_processing_end` are set.  An absent
or zero-length buffer returns `None` before either callback fires.
Otherwise the start callback fires, the engine runs inside
try/except/finally (an exception from transcribe or align is caught and
degrades to `None`; a result with no segments is "no speech" and also
yields `None`), and the `finally` block fires the end callback on every
exit path. -/
def process_audio (t : TranscribeOut) (al : AlignOut)
    (cbStart cbEnd : Bool) (audio : Option (List Int)) :
    Option Transcript × List PEvent :=
  match audio with
  | none => (none, [])
  | some a =>
      if a.length = 0 then (none, [])
      else
        let evStart := if cbStart then [PEvent.procStart] else []
        let evEnd := if cbEnd then [PEvent.procEnd] else []
        match t with
        | TranscribeOut.raised =>
            (none, evStart ++ [PEvent.engineCall] ++ evEnd)
        | TranscribeOut.res segs =>
            if segs.length > 0 then
              match al with
              | AlignOut.raised =>
                  (none, evStart ++ [PEvent.engineCall] ++ evEnd)
              | AlignOut.res asegs lang =>
                  (some ⟨(String.intercalate " " (asegs.map Seg.text)).trim,
                         lang.getD "en", asegs⟩,
                   evStart ++ [PEvent.engineCall] ++ evEnd)
            else (none, evStart ++ [PEvent.engineCall] ++ evEnd)

/-- C4 counterexample: `process_audio` on an absent buffer (and likewise
on an empty one) returns before invoking either callback — no
`onProcessingStart` and no `onProcessingEnd` fire, contradicting the
claim that they are invoked for every input including an empty or absent
buffer. -/
theorem process_audio_empty_buffer_skips_callbacks :
    (process_audio (TranscribeOut.res []) (AlignOut.res [] none)
      true true none).2 = [] ∧
    (process_audio (TranscribeOut.res []) (AlignOut.res [] none)
      true true (some [])).2 = [] := by
  constructor <;> rfl

/-- C4 (amended): for every non-empty buffer, `on_processing_start` is
invoked before the engine runs and `on_processing_end` after it, on
every exit path — successful transcription, engine result with no
speech, and an exception from either engine call; for an empty or absent
buffer, `process_audio` returns absent without invoking either
callback. -/
theorem process_audio_callbacks_bracket_engine (t : TranscribeOut)
    (al : AlignOut) (a : List Int) (ha : a ≠ []) :
    (process_audio t al true true (some a)).2
        = [PEvent.procStart, PEvent.engineCall, PEvent.procEnd] ∧
    (process_audio t al true true none).2 = [] ∧
    (process_audio t al true true (some [])).2 = [] := by
  have hlen : ¬ a.length = 0 := by
    simpa using ha
  refine ⟨?_, rfl, rfl⟩
  cases t with
  | raised => simp [process_audio, hlen]
  | res segs =>
      by_cases hs : segs.length > 0
      · cases al <;> simp [process_audio, hlen, hs]
      · simp [process_audio, hlen, hs]

/-- Witness for C4 (amended) at a one-sample buffer and a successful
engine run. -/
theorem process_audio_callbacks_bracket_engine_witness :
    ([1] : List Int) ≠ [] ∧
    (process_audio (TranscribeOut.res [⟨"hi", 0, 1⟩])
        (AlignOut.res [⟨"hi", 0, 1⟩] (some "en")) true true
        (some [1])).2
      = [PEvent.procStart, PEvent.engineCall, PEvent.procEnd] := by
  refine ⟨by decide, ?_⟩
  exact (process_audio_callbacks_bracket_engine
    (TranscribeOut.res [⟨"hi", 0, 1⟩])
    (AlignOut.res [⟨"hi", 0, 1⟩] (some "en")) [1] (by decide)).1

/-! ## WebSocketClient (src/network/websocket.py) -/

/-- The mutable fields of `WebSocketClient`: the reconnect flag, the
connected flag, whether a socket object exists (`self.websocket is not
None` — the source never resets it to None), whether the metrics task
handle is set, and whether the status/message handlers are registered. -/
structure WState where
  should_reconnect : Bool
  connected : Bool
  websocket : Bool
  metrics_task : Bool
  status_handler : Bool
  message_handler : Bool
deriving DecidableEq, Repr

/-- Outbound frame types used by the embedded paths. -/
inductive MsgType
  | connectMsg
  | requestMetrics
deriving DecidableEq, Repr

/-- Observable events of the network client. -/
inductive WEvent
  | attempt
  | statusNote (b : Bool)
  | wireSend (t : MsgType)
  | spawnMetrics
  | cancelMetrics
  | emitEmptyMetrics
  | backoff
  | socketFail
  | wsClose
  | sleep5
deriving DecidableEq, Repr

/-- `WebSocketClient.send_message` (websocket.py lines 115-122): sends
only when a socket object exists and `connected` is set; an exception
during the send is caught right here and flips `connected` to False —
nothing propagates to the caller. -/
def send_message (sendOk : Bool) (t : MsgType) (s : WState) :
    WState × List WEvent :=
  if s.websocket && s.connected then
    if sendOk then (s, [WEvent.wireSend t])
    else ({ s with connected := false }, [])
  else (s, [])

/-- `WebSocketClient.disconnect` (websocket.py lines 71-81): clears
`should_reconnect`; then, whenever a socket object exists, closes it,
sets `connected = False` and notifies the status handler; with no socket
object it only clears the flag. -/
def disconnect (s : WState) : WState × List WEvent :=
  let s1 := { s with should_reconnect := false }
  if s1.websocket then
    ({ s1 with connected := false },
     [WEvent.wsClose]
       ++ (if s1.status_handler then [WEvent.statusNote false] else []))
  else (s1, [])

/-- One iteration of the body of
`WebSocketClient.request_metrics_updates` (websocket.py lines 85-98): if
connected, send a `request_metrics` frame, then sleep 5 seconds.
`send_message` swallows its own exceptions, so the body never raises and
the `except` branch (empty snapshot, 1-second sleep) is unreachable from
send failures. -/
def metricsIter (sendOk : Bool) (s : WState) : WState × List WEvent :=
  if s.connected then
    let r := send_message sendOk MsgType.requestMetrics s
    (r.1, r.2 ++ [WEvent.sleep5])
  else (s, [WEvent.sleep5])

/-- The metrics task loop: `while self.should_reconnect:` around the
iteration body, consuming one send oracle per iteration. -/
def metricsTrace : WState → List Bool → WState × List WEvent
  | s, [] => (s, [])
  | s, ok :: rest =>
      if s.should_reconnect then
        let r := metricsIter ok s
        let r2 := metricsTrace r.1 rest
        (r2.1, r.2 ++ r2.2)
      else (s, [])

/-- What the environment does in one iteration of the `connect` loop:
`fail` — the `websockets.connect` attempt raises; `okDrop sendOk` — the
attempt succeeds (the oracle covers the initial connect frame's send)
and `_listen` later returns after a socket failure (ConnectionClosed and
every other exception are caught inside `_listen`, which merely clears
`connected`); the `...Disc` variants are the same iterations with
`disconnect()` called concurrently — during `_listen` for a successful
attempt, during the backoff sleep for a failed one. -/
inductive Outcome
  | fail
  | okDrop (sendOk : Bool)
  | okDisc (sendOk : Bool)
  | failDisc
deriving DecidableEq, Repr

/-- The `while self.should_reconnect:` loop of `WebSocketClient.connect`
(websocket.py lines 23-69), run over a finite script of environment
outcomes.  Per iteration: exit if the flag is down; skip if already
connected; otherwise attempt.  On success: set the socket and
`connected`, notify status observers (True), send the initial `connect`
frame, spawn the metrics task if none, then listen until the socket
fails (clearing `connected`).  On an attempt exception: clear
`connected`, notify status observers (False), cancel and clear the
metrics task, emit one empty metrics_update to the message handler, and
sleep the 5-second backoff before retrying. -/
def connectTrace : WState → List Outcome → WState × List WEvent
  | s, [] => (s, [])
  | s, o :: rest =>
      if ¬ s.should_reconnect then (s, [])
      else if s.connected then connectTrace s rest
      else
        match o with
        | Outcome.fail =>
            let e1 := WEvent.attempt ::
              ((if s.status_handler then [WEvent.statusNote false] else [])
                ++ (if s.metrics_task then [WEvent.cancelMetrics] else [])
                ++ (if s.message_handler then [WEvent.emitEmptyMetrics]
                    else []))
            let s1 := { s with connected := false, metrics_task := false }
            let r := connectTrace s1 rest
            (r.1, e1 ++ [WEvent.backoff] ++ r.2)
        | Outcome.okDrop sendOk =>
            let s1 := { s with websocket := true, connected := true }
            let e1 := WEvent.attempt ::
              (if s.status_handler then [WEvent.statusNote true] else [])
            let r2 := send_message sendOk MsgType.connectMsg s1
            let p3 := if r2.1.metrics_task then (r2.1, ([] : List WEvent))
                      else ({ r2.1 with metrics_task := true },
                            [WEvent.spawnMetrics])
            let s4 := { p3.1 with connected := false }
            let r := connectTrace s4 rest
            (r.1, e1 ++ r2.2 ++ p3.2 ++ [WEvent.socketFail] ++ r.2)
        | Outcome.okDisc sendOk =>
            let s1 := { s with websocket := true, connected := true }
            let e1 := WEvent.attempt ::
              (if s.status_handler then [WEvent.statusNote true] else [])
            let r2 := send_message sendOk MsgType.connectMsg s1
            let p3 := if r2.1.metrics_task then (r2.1, ([] : List WEvent))
                      else ({ r2.1 with metrics_task := true },
                            [WEvent.spawnMetrics])
            let rd := disconnect p3.1
            let s5 := { rd.1 with connected := false }
            (s5, e1 ++ r2.2 ++ p3.2 ++ rd.2 ++ [WEvent.socketFail])
        | Outcome.failDisc =>
            let e1 := WEvent.attempt ::
              ((if s.status_handler then [WEvent.statusNote false] else [])
                ++ (if s.metrics_task then [WEvent.cancelMetrics] else [])
                ++ (if s.message_handler then [WEvent.emitEmptyMetrics]
                    else []))
            let s1 := { s with connected := false, metrics_task := false }
            let rd := disconnect s1
            (rd.1, e1 ++ rd.2 ++ [WEvent.backoff])

/-- `WebSocketClient.connect` (websocket.py lines 19-69): raise the
`should_reconnect` flag, then run the reconnect loop. -/
def wsConnect (s : WState) (script : List Outcome) : WState × List WEvent :=
  connectTrace { s with should_reconnect := true } script

/-- The events strictly between the first socket failure and the next
connection attempt. -/
def betweenFailAndAttempt (evs : List WEvent) : List WEvent :=
  (((evs.dropWhile (fun e => e != WEvent.socketFail)).drop 1).takeWhile
    (fun e => e != WEvent.attempt))

theorem connectTrace_stopped (s : WState) (script : List Outcome)
    (hf : s.should_reconnect = false) :
    connectTrace s script = (s, []) := by
  cases script with
  | nil => rfl
  | cons o rest => simp [connectTrace, hf]

theorem metricsTrace_stopped (s : WState) (oks : List Bool)
    (hf : s.should_reconnect = false) :
    metricsTrace s oks = (s, []) := by
  cases oks with
  | nil => rfl
  | cons ok rest => simp [metricsTrace, hf]

theorem disconnect_clears_flag (s : WState) :
    (disconnect s).1.should_reconnect = false := by
  by_cases hw : s.websocket = true <;> simp [disconnect, hw]

theorem connectTrace_head (s : WState) (script : List Outcome) :
    (connectTrace s script).2 = [] ∨
    (connectTrace s script).2.head? = some WEvent.attempt := by
  induction script generalizing s with
  | nil => exact Or.inl rfl
  | cons o rest ih =>
      by_cases hf : s.should_reconnect = true
      · by_cases hc : s.connected = true
        · have he : connectTrace s (o :: rest) = connectTrace s rest := by
            simp [connectTrace, hf, hc]
          rw [he]
          exact ih s
        · right
          cases o <;> simp [connectTrace, hf, hc]
      · left
        have hf2 : s.should_reconnect = false := by
          simpa using hf
        simp [connectTrace, hf2]

theorem connectTrace_okDrop (s : WState) (ok : Bool) (rest : List Outcome)
    (hf : s.should_reconnect = true) (hc : s.connected = false) :
    (connectTrace s (Outcome.okDrop ok :: rest)).2
        = (WEvent.attempt ::
            ((if s.status_handler then [WEvent.statusNote true] else [])
              ++ (if ok then [WEvent.wireSend MsgType.connectMsg] else [])
              ++ (if s.metrics_task then [] else [WEvent.spawnMetrics])))
          ++ [WEvent.socketFail]
          ++ (connectTrace
                { s with
                  websocket := true,
                  connected := false,
                  metrics_task := true } rest).2 := by
  by_cases hst : s.status_handler = true <;> by_cases hok : ok = true <;>
    by_cases hmt : s.metrics_task = true <;>
      simp [connectTrace, send_message, hf, hc, hst, hok, hmt]

theorem connectTrace_fail (s : WState) (rest : List Outcome)
    (hf : s.should_reconnect = true) (hc : s.connected = false)
    (hmh : s.message_handler = true) :
    (connectTrace s (Outcome.fail :: rest)).2
        = (WEvent.attempt ::
            ((if s.status_handler then [WEvent.statusNote false] else [])
              ++ (if s.metrics_task then [WEvent.cancelMetrics] else [])
              ++ [WEvent.emitEmptyMetrics]))
          ++ [WEvent.backoff]
          ++ (connectTrace
                { s with connected := false, metrics_task := false }
                rest).2 := by
  by_cases hst : s.status_handler = true <;>
    by_cases hmt : s.metrics_task = true <;>
      simp [connectTrace, hf, hc, hmh, hst, hmt]

/-- C3 counterexample: starting disconnected with both handlers set, the
script "connect succeeds, socket then fails; next attempt fails" yields
a trace where the socket failure is followed immediately by the next
reconnect attempt: the number of empty MetricsSnapshot emissions between
them is 0, not 1 as claimed (the single emission comes only after the
failed attempt, in the `except` branch of `connect`). -/
theorem socket_fail_zero_empty_metrics_before_retry :
    (wsConnect ⟨false, false, false, false, true, true⟩
        [Outcome.okDrop true, Outcome.fail]).2
      = [WEvent.attempt, WEvent.statusNote true,
         WEvent.wireSend MsgType.connectMsg, WEvent.spawnMetrics,
         WEvent.socketFail, WEvent.attempt, WEvent.statusNote false,
         WEvent.cancelMetrics, WEvent.emitEmptyMetrics, WEvent.backoff] ∧
    ¬ ((betweenFailAndAttempt
          (wsConnect ⟨false, false, false, false, true, true⟩
            [Outcome.okDrop true, Outcome.fail]).2).count
        WEvent.emitEmptyMetrics = 1) := by
  decide

/-- C3 (amended): after `connect()` succeeds and the socket then fails,
the failure is caught inside `_listen` and the loop re-attempts
immediately: no events at all — in particular no empty MetricsSnapshot —
occur between the socket failure and the next reconnect attempt.  An
empty snapshot is emitted exactly once per failed connection attempt,
before the 5-second backoff.  After `disconnect()` clears
`should_reconnect`, no further reconnect attempts occur and the metrics
task sends no further `request_metrics` frames. -/
theorem socket_failure_and_disconnect_behaviour (s : WState) (ok : Bool)
    (rest : List Outcome) (oks : List Bool)
    (hf : s.should_reconnect = true) (hc : s.connected = false)
    (hmh : s.message_handler = true) :
    betweenFailAndAttempt
        ((connectTrace s (Outcome.okDrop ok :: rest)).2) = [] ∧
    ((connectTrace s (Outcome.fail :: rest)).2.takeWhile
          (fun e => e != WEvent.backoff)).count WEvent.emitEmptyMetrics
        = 1 ∧
    (disconnect s).1.should_reconnect = false ∧
    connectTrace (disconnect s).1 rest = ((disconnect s).1, []) ∧
    metricsTrace (disconnect s).1 oks = ((disconnect s).1, []) := by
  refine ⟨?_, ?_, disconnect_clears_flag s, ?_, ?_⟩
  · rw [connectTrace_okDrop s ok rest hf hc]
    rcases connectTrace_head
        { s with
          websocket := true, connected := false, metrics_task := true }
        rest with htl | htl
    · rw [htl]
      by_cases hst : s.status_handler = true <;>
        by_cases hok : ok = true <;>
          by_cases hmt : s.metrics_task = true <;>
            simp [betweenFailAndAttempt, hst, hok, hmt]
    · rcases hev : (connectTrace
          { s with
            websocket := true, connected := false, metrics_task := true }
          rest).2 with _ | ⟨e, tl⟩
      · by_cases hst : s.status_handler = true <;>
          by_cases hok : ok = true <;>
            by_cases hmt : s.metrics_task = true <;>
              simp [betweenFailAndAttempt, hst, hok, hmt]
      · rw [hev] at htl
        have he : e = WEvent.attempt := by
          simpa using htl
        subst he
        by_cases hst : s.status_handler = true <;>
          by_cases hok : ok = true <;>
            by_cases hmt : s.metrics_task = true <;>
              simp [betweenFailAndAttempt, hst, hok, hmt]
  · rw [connectTrace_fail s rest hf hc hmh]
    by_cases hst : s.status_handler = true <;>
      by_cases hmt : s.metrics_task = true <;>
        simp [hst, hmt]
  · exact connectTrace_stopped _ _ (disconnect_clears_flag s)
  · exact metricsTrace_stopped _ _ (disconnect_clears_flag s)

/-- Witness for C3 (amended) at the disconnected initial state with both
handlers set. -/
theorem socket_failure_and_disconnect_behaviour_witness :
    (⟨true, false, false, false, true, true⟩
        : WState).should_reconnect = true ∧
    betweenFailAndAttempt
        ((connectTrace ⟨true, false, false, false, true, true⟩
          [Outcome.okDrop true, Outcome.fail]).2) = [] ∧
    connectTrace
        (disconnect ⟨true, false, false, false, true, true⟩).1
        [Outcome.fail]
      = ((disconnect ⟨true, false, false, false, true, true⟩).1, []) := by
  have h := socket_failure_and_disconnect_behaviour
    ⟨true, false, false, false, true, true⟩ true [Outcome.fail] [true]
    rfl rfl rfl
  exact ⟨rfl, h.1, h.2.2.2.1⟩

/-- C6 counterexample: from a connected state (socket object present,
status handler set), two consecutive `disconnect()` calls notify the
status observers twice — the socket reference is never cleared, so the
second call repeats the close-and-notify — contradicting "only one
status-change notification ... the second call is a no-op". -/
theorem double_disconnect_notifies_twice :
    ((disconnect ⟨true, true, true, true, true, true⟩).2
      ++ (disconnect
            (disconnect ⟨true, true, true, true, true, true⟩).1).2).count
        (WEvent.statusNote false) = 2 ∧
    (disconnect (disconnect ⟨true, true, true, true, true, true⟩).1).2
      ≠ [] := by
  decide

/-- C6 (amended): `disconnect()` always clears `should_reconnect`, and is
idempotent on the state — the second call recomputes the same state —
but not on observable effects: whenever a socket object exists and a
status handler is set, every call, including the second, closes the
socket again and emits one more Disconnected status notification; two
calls from a connected state therefore produce two notifications. -/
theorem disconnect_state_idempotent_but_renotifies (s : WState)
    (hw : s.websocket = true) (hst : s.status_handler = true) :
    (disconnect s).2 = [WEvent.wsClose, WEvent.statusNote false] ∧
    (disconnect (disconnect s).1).2
        = [WEvent.wsClose, WEvent.statusNote false] ∧
    (disconnect (disconnect s).1).1 = (disconnect s).1 ∧
    (disconnect s).1.should_reconnect = false := by
  simp [disconnect, hw, hst]

/-- Witness for C6 (amended) at the fully-connected state. -/
theorem disconnect_state_idempotent_but_renotifies_witness :
    (⟨true, true, true, true, true, true⟩ : WState).websocket = true ∧
    (disconnect ⟨true, true, true, true, true, true⟩).2
        = [WEvent.wsClose, WEvent.statusNote false] ∧
    (disconnect (disconnect ⟨true, true, true, true, true, true⟩).1).2
        = [WEvent.wsClose, WEvent.statusNote false] := by
  have h := disconnect_state_idempotent_but_renotifies
    ⟨true, true, true, true, true, true⟩ rfl rfl
  exact ⟨rfl, h.1, h.2.1⟩

/-- C7 counterexample: while connected, a failing `request_metrics` send
is swallowed inside `send_message`, which merely clears `connected`: the
metrics iteration emits no empty MetricsSnapshot and performs its
regular 5-second sleep, not a 1-second retry — the claimed on-failure
behaviour never happens for send failures. -/
theorem metrics_send_failure_emits_nothing :
    (metricsIter false ⟨true, true, true, true, true, true⟩).2
        = [WEvent.sleep5] ∧
    WEvent.emitEmptyMetrics ∉
      (metricsIter false ⟨true, true, true, true, true, true⟩).2 ∧
    (metricsIter false ⟨true, true, true, true, true, true⟩).1.connected
        = false := by
  decide

/-- C7 (amended): while connected the metrics task sends one
`request_metrics` frame per iteration and then sleeps 5 seconds; when
the send fails, `send_message` catches the error internally and marks
the client disconnected — the task emits no empty MetricsSnapshot and
keeps the 5-second cadence (the `except` branch with the 1-second retry
is unreachable from send failures); subsequent iterations, being
disconnected, skip sending and keep sleeping 5 seconds. -/
theorem metrics_task_send_behaviour (s : WState) (ok : Bool)
    (hw : s.websocket = true) (hc : s.connected = true) :
    metricsIter true s
        = (s, [WEvent.wireSend MsgType.requestMetrics, WEvent.sleep5]) ∧
    metricsIter false s
        = ({ s with connected := false }, [WEvent.sleep5]) ∧
    WEvent.emitEmptyMetrics ∉ (metricsIter ok s).2 ∧
    metricsIter ok { s with connected := false }
        = ({ s with connected := false }, [WEvent.sleep5]) := by
  cases ok <;> simp [metricsIter, send_message, hw, hc]

/-- Witness for C7 (amended) at the fully-connected state. -/
theorem metrics_task_send_behaviour_witness :
    (⟨true, true, true, true, true, true⟩ : WState).connected = true ∧
    metricsIter true ⟨true, true, true, true, true, true⟩
        = (⟨true, true, true, true, true, true⟩,
           [WEvent.wireSend MsgType.requestMetrics, WEvent.sleep5]) ∧
    metricsIter false ⟨true, true, true, true, true, true⟩
        = (⟨true, false, true, true, true, true⟩, [WEvent.sleep5]) := by
  have h := metrics_task_send_behaviour
    ⟨true, true, true, true, true, true⟩ true rfl rfl
  exact ⟨rfl, h.1, h.2.1⟩

end WhisperClient
